import Mathlib

/-
Shallow embedding of the Exoscale Terraform provider sources:
  - exoscale/resource_exoscale_network.go        (resourceNetwork*)
  - exoscale/resource_exoscale_affinity.go       (resourceAffinity*)
  - exoscale/datasource_exoscale_network.go      (dataSourceNetworkRead)
  - exoscale/datasource_exoscale_domain.go       (dataSourceDomainRead)

The remote API client is modelled as an oracle (`Client`): a record of pure
functions, one per request shape, so every lifecycle function is a pure Lean
function of the client and the declared resource state.  Functions that issue
RPCs additionally return the list of RPCs issued, in order, so that temporal
claims ("no RPC before validation", "exactly one cleanup delete") are provable.
Go runtime panics (nil-interface type assertions) are modelled by an explicit
`crash` outcome.
-/

namespace Exoscale

/-- Splits a character list at every occurrence of `sep` (a computable stand-in
for the string splitting used by the textual format checks below). -/
def splitOnChar (sep : Char) : List Char → List (List Char)
  | [] => [[]]
  | ch :: rest =>
    match splitOnChar sep rest with
    | [] => [[]]
    | grp :: grps => if ch = sep then [] :: grp :: grps else (ch :: grp) :: grps

/-- Hex digit test used by the UUID format check. -/
def isHexDigit (ch : Char) : Bool := ch.isDigit || ('a' ≤ ch && ch ≤ 'f') || ('A' ≤ ch && ch ≤ 'F')

/-- UUID textual format: 8-4-4-4-12 hex digits, as accepted by egoscale.ParseUUID. -/
def validUUID (s : String) : Bool :=
  match splitOnChar '-' s.toList with
  | [a, b, c, d, e] =>
    a.length == 8 && b.length == 4 && c.length == 4 && d.length == 4 && e.length == 12 &&
      (a ++ b ++ c ++ d ++ e).all isHexDigit
  | _ => false

/-- An egoscale UUID: a string in valid UUID format.  `String()` is the identity. -/
def UUID : Type := { s : String // validUUID s = true }

instance : DecidableEq UUID := Subtype.instDecidableEq

/-- egoscale.ParseUUID / MustParseUUID success condition. -/
def parseUUID (s : String) : Option UUID :=
  if h : validUUID s = true then some ⟨s, h⟩ else none

/-- Numeric value of a decimal digit string. -/
def octetVal (cs : List Char) : Nat :=
  cs.foldl (fun n ch => n * 10 + (ch.toNat - 48)) 0

/-- A valid octet of a dotted-quad IPv4 literal. -/
def validOctet (p : List Char) : Bool :=
  decide (1 ≤ p.length) && decide (p.length ≤ 3) && p.all Char.isDigit &&
    decide (octetVal p ≤ 255)

/-- A valid dotted-quad IPv4 literal (model of the strings net.ParseIP accepts here). -/
def isValidIPv4 (s : String) : Bool :=
  match splitOnChar '.' s.toList with
  | [a, b, c, d] => validOctet a && validOctet b && validOctet c && validOctet d
  | _ => false

/-- Model of Go `net.ParseIP` on the provider's inputs: `none` is Go's nil IP
(in particular `parseIP "" = none`); a parsed IP keeps its textual form since
the provider only ever turns it back into a string. -/
def parseIP (s : String) : Option String :=
  if isValidIPv4 s then some s else none

/-- Machine-readable API error codes (egoscale.ParamError, egoscale.NotFound, others). -/
inductive ApiCode
  | paramError
  | notFound
  | other (n : Nat)
deriving DecidableEq

/-- An error returned by an RPC: either a typed *egoscale.ErrorResponse carrying an
API code, or any other ("plain") Go error such as a timeout. -/
inductive RpcError
  | api (code : ApiCode)
  | plain (msg : String)
deriving DecidableEq

/-- The Go error values produced by the embedded functions, one constructor per
distinct error site. -/
inductive GoErr
  | rpc (e : RpcError)                 -- an RPC error returned verbatim
  | zoneNotFound (name : String)       -- getZoneByName: no zone with that name
  | validationBothIPs                  -- "start_ip and end_ip must be both specified"
  | validationNetmask                  -- "netmask must be specified with start_ip and end_ip"
  | invalidUUID (s : String)           -- egoscale.ParseUUID failure
  | mustBeRecreated (key : String)     -- update: new value of key cannot be empty
  | noNetworkFound (id : String)       -- read: "no network found for ID %s"
  | errNotFound                        -- the egoscale.ErrNotFound sentinel
  | eitherNameOrID                     -- ds network: "either name or id must be specified"
  | invalidIDValue                     -- ds network: "invalid value for id"
  | listingFailed (e : RpcError)       -- ds network: "networks listing failed: %s"
  | multipleNetworks (name : String)   -- ds network: "found multiple networks named %q"
  | networkNotFound                    -- ds network: "network not found"
  | domainListError (e : RpcError)     -- ds domain: "error retrieving domain list: %s"
  | domainNotFound (name : String)     -- ds domain: "domain %q not found"
deriving DecidableEq

/-- A zone as returned by the ListZones RPC. -/
structure Zone where
  id : UUID
  name : String
deriving DecidableEq

/-- A network Remote Object (egoscale.Network) as returned by the API.
IP fields are `Option String`: `none` is a nil IP, `some s` a non-nil IP whose
`String()` is `s`. -/
structure Network where
  id : UUID
  name : String
  displayText : String
  zoneName : String
  startIP : Option String
  endIP : Option String
  netmask : Option String
  tags : List (String × String)
deriving DecidableEq

/-- A DNS domain as returned by ListDNSDomains (egoscale v2). -/
structure DNSDomain where
  id : String
  unicodeName : String
deriving DecidableEq

/-- An anti-affinity group Remote Object (egoscale.AffinityGroup). -/
structure AffinityGroup where
  id : UUID
  name : String
  description : String
  typ : String
  virtualMachineIDs : List UUID
deriving DecidableEq

/-- The egoscale.CreateNetwork request built by resourceNetworkCreate. -/
structure CreateNetworkReq where
  name : String
  displayText : String
  zoneID : UUID
  startIP : Option String
  endIP : Option String
  netmask : Option String
deriving DecidableEq

/-- The egoscale.CreateAffinityGroup request. -/
structure CreateAffinityReq where
  name : String
  description : String
  typ : String
deriving DecidableEq

/-- Boolean (async/boolean-response) commands issued via BooleanRequestWithContext. -/
inductive BoolCmd
  | makeTags (tags : List (String × String))   -- the egoscale.CreateTags command
  | deleteNetwork (id : UUID)                  -- egoscale.DeleteNetwork
deriving DecidableEq

/-- Requests issued during resourceNetworkUpdate via RequestWithContext. -/
inductive UpdateCmd
  | updateNetwork (id : UUID) (name displayText : String)
      (startIP endIP netmask : Option String)  -- egoscale.UpdateNetwork
  | setTags (tags : List (String × String))    -- a tag diff/patch command
deriving DecidableEq

/-- One issued RPC, recorded in call order by the embedded functions. -/
inductive Rpc
  | listZones
  | listNetworksByID (id zoneID : UUID)   -- egoscale.ListNetworks{ID, ZoneID}
  | createNetwork (req : CreateNetworkReq)
  | bool (cmd : BoolCmd)
  | update (cmd : UpdateCmd)
deriving DecidableEq

/-- The remote API client, modelled as an oracle: one pure response function per
request shape.  Determinism of the oracle models the synchronous single-call
setting of one lifecycle operation. -/
structure Client where
  zones : Except RpcError (List Zone)
  listNetworksByID : UUID → UUID → Except RpcError (List Network)
  listNetworks : UUID → Except RpcError (List Network)
  createNetwork : CreateNetworkReq → Except RpcError Network
  boolReq : BoolCmd → Option RpcError
  updateReq : UpdateCmd → Option RpcError
  listDNSDomains : Except RpcError (List DNSDomain)
  getAffinityGroup : UUID → Except RpcError AffinityGroup
  createAffinityGroup : CreateAffinityReq → Except RpcError AffinityGroup

/-- Declared Resource State of an exoscale_network resource (the schema's
attributes plus the host-assigned identifier, all strings as in the schema). -/
structure NetworkData where
  id : String
  zone : String
  name : String
  display_text : String
  start_ip : String
  end_ip : String
  netmask : String
  tags : List (String × String)
deriving DecidableEq

/-- State of the exoscale_network data source (`id_attr` is the "id" attribute,
`id` the resource identifier d.Id()). -/
structure DsNetworkData where
  id : String
  zone : String
  id_attr : String
  name : String
  description : String
  start_ip : String
  end_ip : String
  netmask : String
deriving DecidableEq

/-- State of the exoscale_domain data source. -/
structure DomainData where
  id : String
  name : String
deriving DecidableEq

/-- Declared Resource State of an exoscale_affinity resource. -/
structure AffinityData where
  id : String
  name : String
  description : String
  typ : String
  virtual_machine_ids : List String
deriving DecidableEq

/-- Outcome of a lifecycle callback: Go `nil` return, a returned error, or a
runtime panic. -/
inductive Outcome
  | ok
  | fail (e : GoErr)
  | crash
deriving DecidableEq

/-- Result of a network lifecycle callback: final state, outcome, RPC trace. -/
structure StepResult where
  state : NetworkData
  out : Outcome
  trace : List Rpc
deriving DecidableEq

/-- Result of an Exists probe: the (possibly id-cleared) state plus either the
Go return pair `(bool, error)` or a panic. -/
inductive ExOut
  | ret (value : Bool) (err : Option GoErr)
  | crash
deriving DecidableEq

/-- Outcome of resourceNetworkFind: a ListNetworksResponse with at least the
returned networks (`Count` is its length), an error, or a panic. -/
inductive FindOut
  | found (resp : List Network)
  | fail (e : GoErr)
  | crash
deriving DecidableEq

/-- Modelled from the spec: the zone/name resolver (§4.2) — the function body is
not under src/.  It issues exactly one zone-listing RPC (recorded as
`Rpc.listZones` by its callers) and linearly scans the listing for the queried
name, returning the zone or a NotFound failure when no zone matches. -/
def getZoneByName (c : Client) (name : String) : Except GoErr Zone :=
  match c.zones with
  | .error e => .error (.rpc e)
  | .ok zs =>
    match zs.find? (fun z => z.name == name) with
    | some z => .ok z
    | none => .error (.zoneNotFound name)

/-- Modelled from the spec: `createTags` (function body not under src/) builds
the tag-creation command for the configured tags of the freshly created object,
and no command when there are no tags to create; it does not fail on the
provider's own schema. -/
def createTags (tags : List (String × String)) : Option BoolCmd :=
  if tags.isEmpty then none else some (BoolCmd.makeTags tags)

/-- Modelled from the spec: `updateTags` (function body not under src/) —
tag reconciliation is diff-and-patch (§3): create missing keys and update
changed ones, leaving the rest untouched; no commands when nothing changed. -/
def updateTags (old new : List (String × String)) : List UpdateCmd :=
  let toSet := new.filter (fun kv => old.lookup kv.1 ≠ some kv.2)
  if toSet.isEmpty then [] else [UpdateCmd.setTags toSet]

/-- Modelled from the spec: `handleNotFound` (function body not under src/) —
a not-found error translates into clearing the local identifier and returning
no error; any other error is propagated (§7 b/c). -/
def handleNotFound (d : AffinityData) (e : RpcError) : AffinityData × Option GoErr :=
  match e with
  | .api code =>
    if code = .notFound then ({ d with id := "" }, none) else (d, some (.rpc (.api code)))
  | .plain m => (d, some (.rpc (.plain m)))

/-- resourceNetworkApply: maps a network Remote Object onto the Declared
Resource State (resource_exoscale_network.go). -/
def resourceNetworkApply (d : NetworkData) (n : Network) : NetworkData :=
  let d1 := { d with id := n.id.1, name := n.name, display_text := n.displayText,
                     zone := n.zoneName }
  let d2 :=
    match n.startIP, n.endIP, n.netmask with
    | some a, some b, some m => { d1 with start_ip := a, end_ip := b, netmask := m }
    | _, _, _ => { d1 with start_ip := "", end_ip := "", netmask := "" }
  { d2 with tags := n.tags }

/-- The per-zone search loop of resourceNetworkFind.  A typed ParamError skips
the zone; a typed error with any other code except NotFound is returned; on a
typed NotFound error or a plain error the Go code falls through to
`resp.(*egoscale.ListNetworksResponse)` with a nil response, a runtime panic,
modelled as `crash`. -/
def resourceNetworkFindLoop (c : Client) (id : UUID) : List Zone → FindOut × List Rpc
  | [] => (.fail .errNotFound, [])
  | z :: rest =>
    let rpc := Rpc.listNetworksByID id z.id
    match c.listNetworksByID id z.id with
    | .error (.api code) =>
      if code = .paramError then
        ((resourceNetworkFindLoop c id rest).1, rpc :: (resourceNetworkFindLoop c id rest).2)
      else if code ≠ .notFound then
        (.fail (.rpc (.api code)), [rpc])
      else
        (.crash, [rpc])
    | .error (.plain _) => (.crash, [rpc])
    | .ok l =>
      if 0 < l.length then (.found l, [rpc])
      else
        ((resourceNetworkFindLoop c id rest).1, rpc :: (resourceNetworkFindLoop c id rest).2)

/-- resourceNetworkFind: cross-zone search for the network with the resource's
identifier.  MustParseUUID panics on an invalid identifier (crash). -/
def resourceNetworkFind (c : Client) (d : NetworkData) : FindOut × List Rpc :=
  match parseUUID d.id with
  | none => (.crash, [])
  | some id =>
    match c.zones with
    | .error e => (.fail (.rpc e), [Rpc.listZones])
    | .ok zones =>
      ((resourceNetworkFindLoop c id zones).1,
        Rpc.listZones :: (resourceNetworkFindLoop c id zones).2)

/-- resourceNetworkRead. -/
def resourceNetworkRead (c : Client) (d : NetworkData) : StepResult :=
  match (resourceNetworkFind c d).1 with
  | .crash => ⟨d, .crash, (resourceNetworkFind c d).2⟩
  | .fail e => ⟨d, .fail e, (resourceNetworkFind c d).2⟩
  | .found resp =>
    match resp with
    | [] => ⟨d, .fail (.noNetworkFound d.id), (resourceNetworkFind c d).2⟩
    | network :: _ => ⟨resourceNetworkApply d network, .ok, (resourceNetworkFind c d).2⟩

/-- resourceNetworkCreate.  Faithful to the source order: zone resolution runs
before the start_ip/end_ip/netmask cross-field validation; on tag-creation
failure one best-effort DeleteNetwork is issued whose response is only logged,
and the original tag error is returned. -/
def resourceNetworkCreate (c : Client) (d : NetworkData) : StepResult :=
  let name := d.name
  let displayText := if d.display_text = "" then name else d.display_text
  let t := [Rpc.listZones]   -- the resolver's single zone-listing RPC
  match getZoneByName c d.zone with
  | .error e => ⟨d, .fail e, t⟩
  | .ok zone =>
    let startIP := parseIP d.start_ip
    let endIP := parseIP d.end_ip
    let netmask := parseIP d.netmask
    if (startIP = none ∧ endIP ≠ none) ∨ (startIP ≠ none ∧ endIP = none) then
      ⟨d, .fail .validationBothIPs, t⟩
    else if (startIP ≠ none ∧ endIP ≠ none) ∧ netmask = none then
      ⟨d, .fail .validationNetmask, t⟩
    else
      let req : CreateNetworkReq := ⟨name, displayText, zone.id, startIP, endIP, netmask⟩
      match c.createNetwork req with
      | .error e => ⟨d, .fail (.rpc e), t ++ [Rpc.createNetwork req]⟩
      | .ok network =>
        let d1 := { d with id := network.id.1 }
        let t1 := t ++ [Rpc.createNetwork req]
        match createTags d1.tags with
        | none =>
          let r := resourceNetworkRead c d1
          ⟨r.state, r.out, t1 ++ r.trace⟩
        | some cmd =>
          match c.boolReq cmd with
          | none =>
            let r := resourceNetworkRead c d1
            ⟨r.state, r.out, t1 ++ [Rpc.bool cmd] ++ r.trace⟩
          | some tagErr =>
            -- attempting to destroy the freshly created network; the response
            -- `_e` is only logged, the original tag error is returned
            let delCmd := BoolCmd.deleteNetwork network.id
            let _e := c.boolReq delCmd
            ⟨d1, .fail (.rpc tagErr), t1 ++ [Rpc.bool cmd, Rpc.bool delCmd]⟩

/-- resourceNetworkExists. -/
def resourceNetworkExists (c : Client) (d : NetworkData) : NetworkData × ExOut :=
  match (resourceNetworkFind c d).1 with
  | .crash => (d, .crash)
  | .fail e =>
    if e = .errNotFound then (d, .ret false none) else (d, .ret false (some e))
  | .found resp =>
    if resp.length = 0 then ({ d with id := "" }, .ret false none)
    else (d, .ret true none)

/-- Executes the accumulated update requests in order, stopping at the first
error (resourceNetworkUpdate's request loop). -/
def runRequests (c : Client) : List UpdateCmd → Option RpcError × List Rpc
  | [] => (none, [])
  | r :: rest =>
    match c.updateReq r with
    | some e => (some e, [Rpc.update r])
    | none => ((runRequests c rest).1, Rpc.update r :: (runRequests c rest).2)

/-- The requests accumulated by resourceNetworkUpdate: the tag diff/patch
commands followed by the UpdateNetwork request. -/
def updateRequests (old d : NetworkData) (id : UUID) : List UpdateCmd :=
  updateTags old.tags d.tags ++
    [UpdateCmd.updateNetwork id d.name d.display_text
      (parseIP d.start_ip) (parseIP d.end_ip) (parseIP d.netmask)]

/-- resourceNetworkUpdate.  `old` is the prior state (d.GetChange's old values),
`d` the new one (d.Get's values). -/
def resourceNetworkUpdate (c : Client) (old d : NetworkData) : StepResult :=
  match parseUUID d.id with
  | none => ⟨d, .fail (.invalidUUID d.id), []⟩
  | some id =>
    if (old.start_ip ≠ d.start_ip ∨ old.end_ip ≠ d.end_ip) ∧
       ((old.start_ip ≠ "" ∧ d.start_ip = "") ∨ (old.end_ip ≠ "" ∧ d.end_ip = "")) then
      -- first key in order start_ip, end_ip whose old value was non-empty and
      -- whose new value is empty
      if old.start_ip ≠ "" ∧ d.start_ip = "" then
        ⟨d, .fail (.mustBeRecreated "start_ip"), []⟩
      else
        ⟨d, .fail (.mustBeRecreated "end_ip"), []⟩
    else
      match (runRequests c (updateRequests old d id)).1 with
      | some e => ⟨d, .fail (.rpc e), (runRequests c (updateRequests old d id)).2⟩
      | none =>
        ⟨(resourceNetworkRead c d).state, (resourceNetworkRead c d).out,
          (runRequests c (updateRequests old d id)).2 ++ (resourceNetworkRead c d).trace⟩

/-- resourceAffinityApply. -/
def resourceAffinityApply (d : AffinityData) (ag : AffinityGroup) : AffinityData :=
  { d with name := ag.name, description := ag.description, typ := ag.typ,
           virtual_machine_ids := ag.virtualMachineIDs.map (·.1) }

/-- resourceAffinityRead. -/
def resourceAffinityRead (c : Client) (d : AffinityData) : AffinityData × Outcome :=
  match parseUUID d.id with
  | none => (d, .fail (.invalidUUID d.id))
  | some id =>
    match c.getAffinityGroup id with
    | .error e =>
      match handleNotFound d e with
      | (d1, none) => (d1, .ok)
      | (d1, some err) => (d1, .fail err)
    | .ok ag => (resourceAffinityApply d ag, .ok)

/-- resourceAffinityCreate. -/
def resourceAffinityCreate (c : Client) (d : AffinityData) : AffinityData × Outcome :=
  match c.createAffinityGroup ⟨d.name, d.description, d.typ⟩ with
  | .error e => (d, .fail (.rpc e))
  | .ok ag =>
    let d1 := { d with id := ag.id.1 }
    resourceAffinityRead c d1

/-- resourceAffinityExists: on an RPC error, `return d.Id() != "", e` after
handleNotFound possibly cleared the identifier. -/
def resourceAffinityExists (c : Client) (d : AffinityData) : AffinityData × ExOut :=
  match parseUUID d.id with
  | none => (d, .ret false (some (.invalidUUID d.id)))
  | some id =>
    match c.getAffinityGroup id with
    | .error e =>
      match handleNotFound d e with
      | (d1, e1) => (d1, .ret (d1.id ≠ "") e1)
    | .ok _ => (d, .ret true none)

/-- The selection loop of dataSourceNetworkRead: break at an ID match, remember
the first name match, fail on a second name match. -/
def dsNetworkLoop (byID : Bool) (pid : Option UUID) (networkName : String) :
    List Network → Option Network → Except GoErr (Option Network)
  | [], acc => .ok acc
  | v :: rest, acc =>
    if byID = true ∧ pid = some v.id then .ok (some v)
    else if v.name = networkName then
      match acc with
      | some _ => .error (.multipleNetworks v.name)
      | none => dsNetworkLoop byID pid networkName rest (some v)
    else dsNetworkLoop byID pid networkName rest acc

/-- The state assembly on a successful data-source network read: SetId, then the
"id", "name" and "description" attributes, then the all-or-nothing
start_ip/end_ip/netmask block. -/
def dsNetworkApply (d : DsNetworkData) (network : Network) : DsNetworkData :=
  let d1 := { d with id := network.id.1 }
  let d2 := { d1 with id_attr := d1.id }
  let d3 := { d2 with name := network.name, description := network.displayText }
  match network.startIP, network.endIP, network.netmask with
  | some a, some b, some m => { d3 with start_ip := a, end_ip := b, netmask := m }
  | _, _, _ => { d3 with start_ip := "", end_ip := "", netmask := "" }

/-- dataSourceNetworkRead. -/
def dataSourceNetworkRead (c : Client) (d : DsNetworkData) : DsNetworkData × Option GoErr :=
  match getZoneByName c d.zone with
  | .error e => (d, some e)
  | .ok zone =>
    if d.name = "" ∧ d.id_attr = "" then (d, some .eitherNameOrID)
    else
      let networkName := if d.name ≠ "" then d.name else ""
      let pid := if d.id_attr ≠ "" then parseUUID d.id_attr else none
      if d.id_attr ≠ "" ∧ pid = none then (d, some .invalidIDValue)
      else
        match c.listNetworks zone.id with
        | .error e => (d, some (.listingFailed e))
        | .ok resp =>
          match dsNetworkLoop (d.id_attr != "") pid networkName resp none with
          | .error e => (d, some e)
          | .ok none => (d, some .networkNotFound)
          | .ok (some network) => (dsNetworkApply d network, none)

/-- dataSourceDomainRead: list all DNS domains, take the first whose unicode
name equals the queried name (the loop breaks at the first match). -/
def dataSourceDomainRead (c : Client) (d : DomainData) : DomainData × Option GoErr :=
  match c.listDNSDomains with
  | .error e => (d, some (.domainListError e))
  | .ok domains =>
    match domains.find? (fun item => item.unicodeName == d.name) with
    | none => (d, some (.domainNotFound d.name))
    | some domain => ({ d with id := domain.id, name := domain.unicodeName }, none)

/-! ### Concrete fixtures used by witnesses and counterexamples -/

def uuidZone : UUID := ⟨"11111111-1111-1111-1111-111111111111", by decide⟩

def uuidZone2 : UUID := ⟨"22222222-2222-2222-2222-222222222222", by decide⟩

def uuidNet : UUID := ⟨"33333333-3333-3333-3333-333333333333", by decide⟩

def uuidNet2 : UUID := ⟨"44444444-4444-4444-4444-444444444444", by decide⟩

def uuidAg : UUID := ⟨"55555555-5555-5555-5555-555555555555", by decide⟩

/-- A client whose every response is inert; fixtures override single fields. -/
def emptyClient : Client where
  zones := .ok []
  listNetworksByID := fun _ _ => .ok []
  listNetworks := fun _ => .ok []
  createNetwork := fun _ => .error (.plain "unexpected createNetwork")
  boolReq := fun _ => none
  updateReq := fun _ => none
  listDNSDomains := .ok []
  getAffinityGroup := fun _ => .error (.api .notFound)
  createAffinityGroup := fun _ => .error (.plain "unexpected createAffinityGroup")

def gvaZone : Zone := ⟨uuidZone, "ch-gva-2"⟩

def fraZone : Zone := ⟨uuidZone2, "de-fra-1"⟩

def sampleNetwork : Network :=
  ⟨uuidNet, "my-net", "my net", "ch-gva-2", some "10.0.0.10", some "10.0.0.50",
    some "255.255.255.0", [("team", "dev")]⟩

/-- A client that knows one zone and nothing else. -/
def oneZoneClient : Client := { emptyClient with zones := .ok [gvaZone] }

/-- Network state with a valid identifier and no optional attributes. -/
def plainNetData : NetworkData :=
  { id := uuidNet.1, zone := "ch-gva-2", name := "n", display_text := "",
    start_ip := "", end_ip := "", netmask := "", tags := [] }

/-- Network state with a start-of-range address but no end-of-range address. -/
def halfRangeNetData : NetworkData :=
  { id := "", zone := "ch-gva-2", name := "n", display_text := "",
    start_ip := "10.0.0.1", end_ip := "", netmask := "", tags := [] }

/-- Affinity-group state with a valid identifier. -/
def plainAgData : AffinityData :=
  { id := uuidAg.1, name := "ag", description := "", typ := "host anti-affinity",
    virtual_machine_ids := [] }

/-- Network state before creation: no identifier and no optional attributes. -/
def freshNetData : NetworkData :=
  { id := "", zone := "ch-gva-2", name := "my-net", display_text := "",
    start_ip := "", end_ip := "", netmask := "", tags := [] }

def sampleAg : AffinityGroup := ⟨uuidAg, "ag", "", "host anti-affinity", []⟩

/-- A client whose list responses honor the requested identifier filter and
whose create/update/get requests all succeed. -/
def filteringClient : Client :=
  { emptyClient with
    zones := .ok [gvaZone],
    listNetworksByID := fun i _ => if i = uuidNet then .ok [sampleNetwork] else .ok [],
    createNetwork := fun _ => .ok sampleNetwork,
    updateReq := fun _ => none,
    createAffinityGroup := fun _ => .ok sampleAg,
    getAffinityGroup := fun i => if i = uuidAg then .ok sampleAg else .error (.api .notFound) }

/-- A second network with a different identifier and name. -/
def otherNet : Network := { sampleNetwork with id := uuidNet2, name := "other-net" }

/-- A client for the data-source reads: one zone, two networks, one DNS domain. -/
def dsHappyClient : Client :=
  { emptyClient with
    zones := .ok [gvaZone],
    listNetworks := fun _ => .ok [sampleNetwork, otherNet],
    listDNSDomains := .ok [⟨"dom-1", "example.com"⟩] }

/-- A name-based data-source network query. -/
def dsQueryData : DsNetworkData :=
  { id := "", zone := "ch-gva-2", id_attr := "", name := "my-net", description := "",
    start_ip := "", end_ip := "", netmask := "" }

/-- True exactly on the DeleteNetwork cleanup RPC. -/
def isDeleteRpc : Rpc → Bool
  | .bool (.deleteNetwork _) => true
  | _ => false

/-- Specification-side description of the cross-zone search (C5's wording): the
response of the first zone, in listing order, whose listing succeeded with at
least one match; parameter-error zones are skipped. -/
def specFirstZoneMatch (c : Client) (id : UUID) : List Zone → Option (List Network)
  | [] => none
  | z :: rest =>
    match c.listNetworksByID id z.id with
    | .ok l => if 0 < l.length then some l else specFirstZoneMatch c id rest
    | .error _ => specFirstZoneMatch c id rest

/-! ### Claim theorems -/

/-- C1, counterexample.  Two DNS domains share the queried name, yet the domain
data-source read succeeds (no error) and silently returns the first match —
the claimed "ambiguous, use an identifier instead" failure does not happen. -/
theorem domainRead_duplicate_name_no_ambiguity_error :
    ([(⟨"id-1", "example.com"⟩ : DNSDomain), ⟨"id-2", "example.com"⟩].filter
        (fun item => item.unicodeName == "example.com")).length = 2 ∧
    dataSourceDomainRead
      { emptyClient with
        listDNSDomains := .ok [⟨"id-1", "example.com"⟩, ⟨"id-2", "example.com"⟩] }
      ⟨"", "example.com"⟩ = (⟨"id-1", "example.com"⟩, none) :=
  ⟨rfl, rfl⟩

/-- C2, counterexample.  With a start-of-range address supplied and no
end-of-range address, Create reports the cross-field validation error — but the
zone-resolution RPC has already been issued, contradicting "no RPC of any kind
(including zone resolution) happens before the cross-field validation passes". -/
theorem create_zone_rpc_before_validation :
    resourceNetworkCreate
      { emptyClient with zones := .ok [gvaZone] }
      { id := "", zone := "ch-gva-2", name := "n", display_text := "",
        start_ip := "10.0.0.1", end_ip := "", netmask := "", tags := [] } =
    ⟨{ id := "", zone := "ch-gva-2", name := "n", display_text := "",
        start_ip := "10.0.0.1", end_ip := "", netmask := "", tags := [] },
      .fail .validationBothIPs, [Rpc.listZones]⟩ :=
  rfl

/-- C2, amended.  For every Create whose zone resolves and whose cross-field
validation fails (start without end, end without start, or a range without a
mask), the validation error is reported before the create RPC and before any
tag RPC: the only RPC issued is the zone-resolution listing, which precedes
validation. -/
theorem create_validation_before_create_rpc (c : Client) (d : NetworkData)
    (hz : ∃ z, getZoneByName c d.zone = .ok z)
    (hbad : (parseIP d.start_ip = none ∧ parseIP d.end_ip ≠ none) ∨
            (parseIP d.start_ip ≠ none ∧ parseIP d.end_ip = none) ∨
            (parseIP d.start_ip ≠ none ∧ parseIP d.end_ip ≠ none ∧
              parseIP d.netmask = none)) :
    ((resourceNetworkCreate c d).out = .fail .validationBothIPs ∨
      (resourceNetworkCreate c d).out = .fail .validationNetmask) ∧
    (resourceNetworkCreate c d).state = d ∧
    (resourceNetworkCreate c d).trace = [Rpc.listZones] := by
  obtain ⟨z, hz⟩ := hz
  rcases hbad with ⟨h1, h2⟩ | ⟨h1, h2⟩ | ⟨h1, h2, h3⟩
  · simp [resourceNetworkCreate, hz, h1, h2]
  · simp [resourceNetworkCreate, hz, h1, h2]
  · simp [resourceNetworkCreate, hz, h1, h2, h3]

theorem create_validation_before_create_rpc_witness :
    ((resourceNetworkCreate { emptyClient with zones := .ok [gvaZone] }
        { id := "", zone := "ch-gva-2", name := "n", display_text := "",
          start_ip := "10.0.0.1", end_ip := "", netmask := "", tags := [] }).out =
        .fail .validationBothIPs ∨
      (resourceNetworkCreate { emptyClient with zones := .ok [gvaZone] }
        { id := "", zone := "ch-gva-2", name := "n", display_text := "",
          start_ip := "10.0.0.1", end_ip := "", netmask := "", tags := [] }).out =
        .fail .validationNetmask) ∧
    (resourceNetworkCreate { emptyClient with zones := .ok [gvaZone] }
      { id := "", zone := "ch-gva-2", name := "n", display_text := "",
        start_ip := "10.0.0.1", end_ip := "", netmask := "", tags := [] }).state =
      { id := "", zone := "ch-gva-2", name := "n", display_text := "",
        start_ip := "10.0.0.1", end_ip := "", netmask := "", tags := [] } ∧
    (resourceNetworkCreate { emptyClient with zones := .ok [gvaZone] }
      { id := "", zone := "ch-gva-2", name := "n", display_text := "",
        start_ip := "10.0.0.1", end_ip := "", netmask := "", tags := [] }).trace =
      [Rpc.listZones] :=
  create_validation_before_create_rpc _ _ ⟨gvaZone, by rfl⟩
    (Or.inr (Or.inl ⟨by decide, by decide⟩))

/-- C3.  For every Update of a network whose start or end address was previously
non-empty and is now empty, the update fails with the must-be-recreated error,
issues no RPC at all, and leaves the Declared Resource State unchanged. -/
theorem update_clear_forcenew_rejected (c : Client) (old d : NetworkData)
    (hid : ∃ u, parseUUID d.id = some u)
    (hbad : (old.start_ip ≠ "" ∧ d.start_ip = "") ∨ (old.end_ip ≠ "" ∧ d.end_ip = "")) :
    ∃ key, (key = "start_ip" ∨ key = "end_ip") ∧
      resourceNetworkUpdate c old d = ⟨d, .fail (.mustBeRecreated key), []⟩ := by
  obtain ⟨u, hu⟩ := hid
  by_cases hs : old.start_ip ≠ "" ∧ d.start_ip = ""
  · refine ⟨"start_ip", Or.inl rfl, ?_⟩
    have hchange : old.start_ip ≠ d.start_ip ∨ old.end_ip ≠ d.end_ip :=
      Or.inl (by rw [hs.2]; exact hs.1)
    simp only [resourceNetworkUpdate, hu]
    rw [if_pos ⟨hchange, Or.inl hs⟩, if_pos hs]
  · rcases hbad with h | h
    · exact absurd h hs
    · refine ⟨"end_ip", Or.inr rfl, ?_⟩
      have hchange : old.start_ip ≠ d.start_ip ∨ old.end_ip ≠ d.end_ip :=
        Or.inr (by rw [h.2]; exact h.1)
      simp only [resourceNetworkUpdate, hu]
      rw [if_pos ⟨hchange, Or.inr h⟩, if_neg hs]

theorem update_clear_forcenew_rejected_witness :
    ∃ key, (key = "start_ip" ∨ key = "end_ip") ∧
      resourceNetworkUpdate emptyClient
        { id := uuidNet.1, zone := "z", name := "n", display_text := "",
          start_ip := "10.0.0.1", end_ip := "10.0.0.5", netmask := "255.255.255.0",
          tags := [] }
        { id := uuidNet.1, zone := "z", name := "n", display_text := "",
          start_ip := "", end_ip := "10.0.0.5", netmask := "255.255.255.0",
          tags := [] } =
      ⟨{ id := uuidNet.1, zone := "z", name := "n", display_text := "",
          start_ip := "", end_ip := "10.0.0.5", netmask := "255.255.255.0",
          tags := [] }, .fail (.mustBeRecreated key), []⟩ :=
  update_clear_forcenew_rejected _ _ _ ⟨uuidNet, by rfl⟩ (Or.inl ⟨by decide, rfl⟩)

/-- C4.  When the create RPC succeeds and the subsequent tag-creation request
fails, Create issues exactly one best-effort DeleteNetwork for the just-created
network and returns the original tag-creation error; the cleanup's own response
is only logged and never replaces that error (the client's delete response is
unconstrained here). -/
theorem create_tag_failure_cleanup (c : Client) (d : NetworkData) (z : Zone)
    (net : Network) (tagErr : RpcError)
    (hz : getZoneByName c d.zone = .ok z)
    (hval1 : ¬((parseIP d.start_ip = none ∧ parseIP d.end_ip ≠ none) ∨
      (parseIP d.start_ip ≠ none ∧ parseIP d.end_ip = none)))
    (hval2 : ¬((parseIP d.start_ip ≠ none ∧ parseIP d.end_ip ≠ none) ∧
      parseIP d.netmask = none))
    (hcreate : c.createNetwork
      ⟨d.name, if d.display_text = "" then d.name else d.display_text, z.id,
        parseIP d.start_ip, parseIP d.end_ip, parseIP d.netmask⟩ = .ok net)
    (htags : d.tags ≠ [])
    (htagfail : c.boolReq (.makeTags d.tags) = some tagErr) :
    (resourceNetworkCreate c d).out = .fail (.rpc tagErr) ∧
    (resourceNetworkCreate c d).trace.filter isDeleteRpc =
      [Rpc.bool (.deleteNetwork net.id)] := by
  have htags' : d.tags.isEmpty = false := by
    cases h : d.tags with
    | nil => exact absurd h htags
    | cons _ _ => rfl
  simp only [resourceNetworkCreate, hz]
  rw [if_neg hval1, if_neg hval2]
  simp only [hcreate, createTags, htags']
  simp [htagfail, isDeleteRpc, List.filter]

theorem create_tag_failure_cleanup_witness :
    (resourceNetworkCreate
      { emptyClient with
        zones := .ok [gvaZone],
        createNetwork := fun _ => .ok sampleNetwork,
        boolReq := fun cmd =>
          match cmd with
          | .makeTags _ => some (.plain "tag error")
          | .deleteNetwork _ => some (.plain "delete also failed") }
      { id := "", zone := "ch-gva-2", name := "my-net", display_text := "",
        start_ip := "", end_ip := "", netmask := "", tags := [("team", "dev")] }).out =
      .fail (.rpc (.plain "tag error")) ∧
    (resourceNetworkCreate
      { emptyClient with
        zones := .ok [gvaZone],
        createNetwork := fun _ => .ok sampleNetwork,
        boolReq := fun cmd =>
          match cmd with
          | .makeTags _ => some (.plain "tag error")
          | .deleteNetwork _ => some (.plain "delete also failed") }
      { id := "", zone := "ch-gva-2", name := "my-net", display_text := "",
        start_ip := "", end_ip := "", netmask := "", tags := [("team", "dev")] }).trace.filter
        isDeleteRpc = [Rpc.bool (.deleteNetwork sampleNetwork.id)] :=
  create_tag_failure_cleanup _ _ gvaZone sampleNetwork (.plain "tag error")
    (by rfl) (by decide) (by decide) (by rfl) (by decide) (by rfl)

lemma findLoop_ok_or_param (c : Client) (id : UUID) :
    ∀ zs : List Zone,
      (∀ z ∈ zs, (∃ l, c.listNetworksByID id z.id = .ok l) ∨
        c.listNetworksByID id z.id = .error (.api .paramError)) →
      (resourceNetworkFindLoop c id zs).1 =
        (match specFirstZoneMatch c id zs with
         | some l => FindOut.found l
         | none => FindOut.fail .errNotFound) := by
  intro zs
  induction zs with
  | nil => intro _; rfl
  | cons z rest ih =>
    intro h
    have hrest := ih (fun z' hz' => h z' (List.mem_cons_of_mem _ hz'))
    rcases h z (List.mem_cons_self _ _) with ⟨l, hl⟩ | hl
    · by_cases h0 : 0 < l.length
      · simp [resourceNetworkFindLoop, specFirstZoneMatch, hl, h0]
      · simp [resourceNetworkFindLoop, specFirstZoneMatch, hl, h0, hrest]
    · simp [resourceNetworkFindLoop, specFirstZoneMatch, hl, hrest]

lemma specFirstZoneMatch_none_of_absent (c : Client) (id : UUID) :
    ∀ zs : List Zone,
      (∀ z ∈ zs, c.listNetworksByID id z.id = .ok [] ∨
        c.listNetworksByID id z.id = .error (.api .paramError)) →
      specFirstZoneMatch c id zs = none := by
  intro zs
  induction zs with
  | nil => intro _; rfl
  | cons z rest ih =>
    intro h
    have hrest := ih (fun z' hz' => h z' (List.mem_cons_of_mem _ hz'))
    rcases h z (List.mem_cons_self _ _) with hl | hl
    · simp [specFirstZoneMatch, hl, hrest]
    · simp [specFirstZoneMatch, hl, hrest]

lemma specFirstZoneMatch_some_pos (c : Client) (id : UUID) :
    ∀ (zs : List Zone) (l : List Network),
      specFirstZoneMatch c id zs = some l → 0 < l.length := by
  intro zs
  induction zs with
  | nil => intro l h; simp [specFirstZoneMatch] at h
  | cons z rest ih =>
    intro l h
    simp only [specFirstZoneMatch] at h
    rcases he : c.listNetworksByID id z.id with e | l2
    all_goals simp only [he] at h
    · exact ih l h
    · by_cases h0 : 0 < l2.length
      · rw [if_pos h0] at h
        injection h with h2
        rw [← h2]
        exact h0
      · rw [if_neg h0] at h
        exact ih l h

/-- C5.  For every Read-by-identifier where each zone's list RPC either succeeds
or reports a parameter error, the lookup scans the zones in listing order,
skips the parameter-error zones, stops at the first zone whose response has at
least one match and returns that response; when no zone yields a match it
returns the NotFound signal. -/
theorem find_scans_zones_in_order (c : Client) (d : NetworkData) (id : UUID)
    (zs : List Zone)
    (hid : parseUUID d.id = some id)
    (hz : c.zones = .ok zs)
    (hok : ∀ z ∈ zs, (∃ l, c.listNetworksByID id z.id = .ok l) ∨
      c.listNetworksByID id z.id = .error (.api .paramError)) :
    (∀ l, specFirstZoneMatch c id zs = some l →
      (resourceNetworkFind c d).1 = .found l) ∧
    (specFirstZoneMatch c id zs = none →
      (resourceNetworkFind c d).1 = .fail .errNotFound) := by
  have hloop := findLoop_ok_or_param c id zs hok
  constructor
  · intro l hl
    simp only [resourceNetworkFind, hid, hz]
    rw [hloop, hl]
  · intro hl
    simp only [resourceNetworkFind, hid, hz]
    rw [hloop, hl]

theorem find_scans_zones_in_order_witness :
    (resourceNetworkFind
      { emptyClient with
        zones := .ok [gvaZone, fraZone],
        listNetworksByID := fun _ zid =>
          if zid = uuidZone then .error (.api .paramError) else .ok [sampleNetwork] }
      plainNetData).1 = .found [sampleNetwork] := by
  refine (find_scans_zones_in_order _ _ uuidNet [gvaZone, fraZone]
    (by rfl) (by rfl) ?_).1 [sampleNetwork] (by rfl)
  intro z hz
  rcases List.mem_cons.mp hz with rfl | hz'
  · right; rfl
  · rcases List.mem_singleton.mp hz' with rfl
    left; exact ⟨[sampleNetwork], by rfl⟩

/-- C6.  The Exists probe: an absent Remote Object yields (false, no error) —
for the affinity resource with the local identifier cleared by the not-found
handler — a present one yields (true, no error), and any error other than
not-found propagates; Read against the same nonexistent identifier yields the
NotFound outcome. -/
theorem exists_probe_semantics (c : Client) (d : NetworkData) (id : UUID)
    (zs : List Zone) (dA : AffinityData) (idA : UUID)
    (hid : parseUUID d.id = some id)
    (hz : c.zones = .ok zs)
    (hidA : parseUUID dA.id = some idA) :
    ((∀ z ∈ zs, c.listNetworksByID id z.id = .ok [] ∨
        c.listNetworksByID id z.id = .error (.api .paramError)) →
      (resourceNetworkRead c d).out = .fail .errNotFound ∧
      (resourceNetworkRead c d).state = d ∧
      resourceNetworkExists c d = (d, .ret false none)) ∧
    (∀ l, specFirstZoneMatch c id zs = some l →
      (∀ z ∈ zs, (∃ l', c.listNetworksByID id z.id = .ok l') ∨
        c.listNetworksByID id z.id = .error (.api .paramError)) →
      resourceNetworkExists c d = (d, .ret true none)) ∧
    (∀ z rest k, zs = z :: rest →
      c.listNetworksByID id z.id = .error (.api (.other k)) →
      resourceNetworkExists c d = (d, .ret false (some (.rpc (.api (.other k)))))) ∧
    (c.getAffinityGroup idA = .error (.api .notFound) →
      resourceAffinityExists c dA = ({ dA with id := "" }, .ret false none) ∧
      resourceAffinityRead c dA = ({ dA with id := "" }, .ok)) ∧
    (∀ ag, c.getAffinityGroup idA = .ok ag →
      resourceAffinityExists c dA = (dA, .ret true none)) ∧
    (∀ k, c.getAffinityGroup idA = .error (.api (.other k)) →
      resourceAffinityExists c dA = (dA, .ret (dA.id ≠ "")
        (some (.rpc (.api (.other k)))))) := by
  refine ⟨?_, ?_, ?_, ?_, ?_, ?_⟩
  · intro habs
    have hspec := specFirstZoneMatch_none_of_absent c id zs habs
    have hloop := findLoop_ok_or_param c id zs (fun z hz' =>
      (habs z hz').elim (fun h => Or.inl ⟨[], h⟩) Or.inr)
    have hfind : (resourceNetworkFind c d).1 = .fail .errNotFound := by
      simp only [resourceNetworkFind, hid, hz]
      rw [hloop, hspec]
    refine ⟨?_, ?_, ?_⟩
    · simp only [resourceNetworkRead, hfind]
    · simp only [resourceNetworkRead, hfind]
    · simp [resourceNetworkExists, hfind]
  · intro l hl hok
    have hloop := findLoop_ok_or_param c id zs hok
    have hfind : (resourceNetworkFind c d).1 = .found l := by
      simp only [resourceNetworkFind, hid, hz]
      rw [hloop, hl]
    have hpos := specFirstZoneMatch_some_pos c id zs l hl
    simp only [resourceNetworkExists, hfind]
    rw [if_neg (by omega)]
  · intro z rest k hzs hl
    have hfind : (resourceNetworkFind c d).1 = .fail (.rpc (.api (.other k))) := by
      simp only [resourceNetworkFind, hid, hz, hzs]
      simp [resourceNetworkFindLoop, hl]
    simp [resourceNetworkExists, hfind]
  · intro hag
    constructor
    · simp [resourceAffinityExists, hidA, hag, handleNotFound]
    · simp [resourceAffinityRead, hidA, hag, handleNotFound]
  · intro ag hag
    simp [resourceAffinityExists, hidA, hag]
  · intro k hag
    simp [resourceAffinityExists, hidA, hag, handleNotFound]

theorem exists_probe_semantics_witness :
    (resourceNetworkRead oneZoneClient plainNetData).out = .fail .errNotFound ∧
    resourceNetworkExists oneZoneClient plainNetData = (plainNetData, .ret false none) ∧
    resourceAffinityExists oneZoneClient plainAgData =
      ({ plainAgData with id := "" }, .ret false none) := by
  have h := exists_probe_semantics oneZoneClient plainNetData uuidNet [gvaZone]
    plainAgData uuidAg (by rfl) (by rfl) (by rfl)
  have habs : ∀ z ∈ [gvaZone],
      oneZoneClient.listNetworksByID uuidNet z.id = .ok [] ∨
      oneZoneClient.listNetworksByID uuidNet z.id = .error (.api .paramError) := by
    intro z hz
    left; rfl
  exact ⟨(h.1 habs).1, (h.1 habs).2.2, (h.2.2.2.1 (by rfl)).1⟩

lemma parseUUID_val {s : String} {u : UUID} (h : parseUUID s = some u) : u.1 = s := by
  unfold parseUUID at h
  split at h
  · injection h with h2
    rw [← h2]
  · exact absurd h (by simp)

lemma parseUUID_roundtrip (u : UUID) : parseUUID u.1 = some u := by
  obtain ⟨s, hs⟩ := u
  simp [parseUUID, hs]

lemma findLoop_found (c : Client) (id : UUID) :
    ∀ (zs : List Zone) (l : List Network),
      (resourceNetworkFindLoop c id zs).1 = .found l →
      (∃ z ∈ zs, c.listNetworksByID id z.id = .ok l) ∧ 0 < l.length := by
  intro zs
  induction zs with
  | nil => intro l h; exact absurd h (by simp [resourceNetworkFindLoop])
  | cons z rest ih =>
    intro l h
    rcases he : c.listNetworksByID id z.id with e | l2
    · rcases e with code | m
      · simp only [resourceNetworkFindLoop, he] at h
        by_cases hp : code = ApiCode.paramError
        · rw [if_pos hp] at h
          obtain ⟨⟨z2, hz2, hok2⟩, hpos⟩ := ih l h
          exact ⟨⟨z2, List.mem_cons_of_mem _ hz2, hok2⟩, hpos⟩
        · rw [if_neg hp] at h
          by_cases hn : code ≠ ApiCode.notFound
          · rw [if_pos hn] at h
            exact absurd h (by simp)
          · rw [if_neg hn] at h
            exact absurd h (by simp)
      · simp only [resourceNetworkFindLoop, he] at h
        exact absurd h (by simp)
    · simp only [resourceNetworkFindLoop, he] at h
      by_cases h0 : 0 < l2.length
      · rw [if_pos h0] at h
        have h2 : FindOut.found l2 = FindOut.found l := h
        injection h2 with h3
        subst h3
        exact ⟨⟨z, List.mem_cons_self _ _, he⟩, h0⟩
      · rw [if_neg h0] at h
        obtain ⟨⟨z2, hz2, hok2⟩, hpos⟩ := ih l h
        exact ⟨⟨z2, List.mem_cons_of_mem _ hz2, hok2⟩, hpos⟩

lemma find_found (c : Client) (d : NetworkData) (id : UUID)
    (hid : parseUUID d.id = some id) :
    ∀ l, (resourceNetworkFind c d).1 = .found l →
      ∃ zs, c.zones = .ok zs ∧
        (∃ z ∈ zs, c.listNetworksByID id z.id = .ok l) ∧ 0 < l.length := by
  intro l h
  simp only [resourceNetworkFind, hid] at h
  rcases hz : c.zones with e | zs
  · rw [hz] at h
    simp at h
  · rw [hz] at h
    simp only [] at h
    exact ⟨zs, rfl, findLoop_found c id zs l h⟩

/-- resourceNetworkFind only reads the identifier of the state. -/
lemma find_id_congr (c : Client) {d d2 : NetworkData} (h : d.id = d2.id) :
    resourceNetworkFind c d = resourceNetworkFind c d2 := by
  unfold resourceNetworkFind
  rw [h]

lemma resourceNetworkApply_id (d : NetworkData) (n : Network) :
    (resourceNetworkApply d n).id = n.id.1 := by
  unfold resourceNetworkApply
  rcases n with ⟨nid, nn, ndt, nzn, nsi, nei, nnm, ntags⟩
  cases nsi <;> cases nei <;> cases nnm <;> rfl

lemma resourceNetworkApply_idem (d : NetworkData) (n : Network) :
    resourceNetworkApply (resourceNetworkApply d n) n = resourceNetworkApply d n := by
  unfold resourceNetworkApply
  rcases n with ⟨nid, nn, ndt, nzn, nsi, nei, nnm, ntags⟩
  cases nsi <;> cases nei <;> cases nnm <;> rfl

/-- A successful Read leaves the identifier at the queried value, provided the
server honors the identifier filter of the list request. -/
lemma read_ok_state_id (c : Client) (d : NetworkData) (id : UUID)
    (hid : parseUUID d.id = some id)
    (hfilter : ∀ (z : Zone) (l : List Network),
      c.listNetworksByID id z.id = .ok l → ∀ n ∈ l, n.id = id)
    (hok : (resourceNetworkRead c d).out = .ok) :
    (resourceNetworkRead c d).state.id = d.id := by
  rcases hf : (resourceNetworkFind c d).1 with l | e | _
  · rcases l with _ | ⟨n, rest⟩
    · simp only [resourceNetworkRead, hf] at hok
      simp at hok
    · obtain ⟨zs, hzs, ⟨z, hzmem, hokz⟩, hpos⟩ := find_found c d id hid _ hf
      have hnid : n.id = id :=
        hfilter z _ hokz n (List.mem_cons_self _ _)
      simp only [resourceNetworkRead, hf]
      rw [resourceNetworkApply_id, hnid, parseUUID_val hid]
  · simp only [resourceNetworkRead, hf] at hok
    simp at hok
  · simp only [resourceNetworkRead, hf] at hok
    simp at hok

/-- A successful Read is a fixpoint of Read: reading the resulting state again
returns the same state, provided the server honors the identifier filter. -/
lemma read_fixpoint (c : Client) (d : NetworkData) (id : UUID)
    (hid : parseUUID d.id = some id)
    (hfilter : ∀ (z : Zone) (l : List Network),
      c.listNetworksByID id z.id = .ok l → ∀ n ∈ l, n.id = id)
    (hok : (resourceNetworkRead c d).out = .ok) :
    (resourceNetworkRead c (resourceNetworkRead c d).state).state =
      (resourceNetworkRead c d).state ∧
    (resourceNetworkRead c (resourceNetworkRead c d).state).out = .ok := by
  rcases hf : (resourceNetworkFind c d).1 with l | e | _
  · rcases l with _ | ⟨n, rest⟩
    · simp only [resourceNetworkRead, hf] at hok
      simp at hok
    · obtain ⟨zs, hzs, ⟨z, hzmem, hokz⟩, hpos⟩ := find_found c d id hid _ hf
      have hnid : n.id = id :=
        hfilter z _ hokz n (List.mem_cons_self _ _)
      have hstate : (resourceNetworkRead c d).state = resourceNetworkApply d n := by
        simp only [resourceNetworkRead, hf]
      have hsid : (resourceNetworkApply d n).id = d.id := by
        rw [resourceNetworkApply_id, hnid, parseUUID_val hid]
      have hfind2 : resourceNetworkFind c (resourceNetworkApply d n) =
          resourceNetworkFind c d :=
        find_id_congr c hsid
      rw [hstate]
      constructor
      · simp only [resourceNetworkRead, hfind2, hf]
        exact resourceNetworkApply_idem d n
      · simp only [resourceNetworkRead, hfind2, hf]
  · simp only [resourceNetworkRead, hf] at hok
    simp at hok
  · simp only [resourceNetworkRead, hf] at hok
    simp at hok

/-- C7.  For every network Update that succeeds, the resource identifier after
the operation equals the identifier before it (the server is assumed to honor
the identifier filter of the list request used by the trailing Read). -/
theorem update_preserves_identifier (c : Client) (old d : NetworkData) (id : UUID)
    (hid : parseUUID d.id = some id)
    (hfilter : ∀ (z : Zone) (l : List Network),
      c.listNetworksByID id z.id = .ok l → ∀ n ∈ l, n.id = id)
    (hok : (resourceNetworkUpdate c old d).out = .ok) :
    (resourceNetworkUpdate c old d).state.id = d.id := by
  by_cases hforce : (old.start_ip ≠ d.start_ip ∨ old.end_ip ≠ d.end_ip) ∧
      ((old.start_ip ≠ "" ∧ d.start_ip = "") ∨ (old.end_ip ≠ "" ∧ d.end_ip = ""))
  · exfalso
    simp only [resourceNetworkUpdate, hid, if_pos hforce] at hok
    by_cases hs : old.start_ip ≠ "" ∧ d.start_ip = ""
    · rw [if_pos hs] at hok
      simp at hok
    · rw [if_neg hs] at hok
      simp at hok
  · simp only [resourceNetworkUpdate, hid, if_neg hforce] at hok ⊢
    rcases hr : (runRequests c (updateRequests old d id)).1 with _ | e
    · simp only [hr] at hok ⊢
      exact read_ok_state_id c d id hid hfilter hok
    · simp only [hr] at hok
      simp at hok

lemma filteringClient_list_hit (zid : UUID) :
    filteringClient.listNetworksByID uuidNet zid = .ok [sampleNetwork] := rfl

lemma filteringClient_list_miss {i : UUID} (h : i ≠ uuidNet) (zid : UUID) :
    filteringClient.listNetworksByID i zid = .ok [] := by
  show (if i = uuidNet then Except.ok [sampleNetwork] else Except.ok []) = Except.ok []
  rw [if_neg h]

theorem update_preserves_identifier_witness :
    (resourceNetworkUpdate filteringClient plainNetData
      { plainNetData with name := "renamed" }).state.id =
      ({ plainNetData with name := "renamed" } : NetworkData).id := by
  refine update_preserves_identifier filteringClient plainNetData
    { plainNetData with name := "renamed" } uuidNet (by rfl) ?_ (by rfl)
  intro z l h n hn
  rw [filteringClient_list_hit] at h
  injection h with h2
  subst h2
  rcases List.mem_singleton.mp hn with rfl
  rfl

lemma create_ok_shape (c : Client) (d : NetworkData)
    (hok : (resourceNetworkCreate c d).out = .ok) :
    ∃ net : Network,
      (resourceNetworkCreate c d).state =
        (resourceNetworkRead c { d with id := net.id.1 }).state ∧
      (resourceNetworkRead c { d with id := net.id.1 }).out = .ok := by
  rcases hz : getZoneByName c d.zone with e | zone
  · exfalso
    simp only [resourceNetworkCreate, hz] at hok
    simp at hok
  · by_cases hv1 : (parseIP d.start_ip = none ∧ parseIP d.end_ip ≠ none) ∨
        (parseIP d.start_ip ≠ none ∧ parseIP d.end_ip = none)
    · exfalso
      simp only [resourceNetworkCreate, hz, if_pos hv1] at hok
      simp at hok
    · by_cases hv2 : (parseIP d.start_ip ≠ none ∧ parseIP d.end_ip ≠ none) ∧
          parseIP d.netmask = none
      · exfalso
        simp only [resourceNetworkCreate, hz, if_neg hv1, if_pos hv2] at hok
        simp at hok
      · rcases hcr : c.createNetwork ⟨d.name,
            if d.display_text = "" then d.name else d.display_text, zone.id,
            parseIP d.start_ip, parseIP d.end_ip, parseIP d.netmask⟩ with e | net
        · exfalso
          simp only [resourceNetworkCreate, hz, if_neg hv1, if_neg hv2, hcr] at hok
          simp at hok
        · refine ⟨net, ?_⟩
          rcases hct : createTags d.tags with _ | cmd
          · simp only [resourceNetworkCreate, hz, if_neg hv1, if_neg hv2, hcr, hct] at hok ⊢
            exact ⟨trivial, hok⟩
          · rcases hbr : c.boolReq cmd with _ | tagErr
            · simp only [resourceNetworkCreate, hz, if_neg hv1, if_neg hv2, hcr, hct,
                hbr] at hok ⊢
              exact ⟨trivial, hok⟩
            · exfalso
              simp only [resourceNetworkCreate, hz, if_neg hv1, if_neg hv2, hcr, hct,
                hbr] at hok
              simp at hok

lemma resourceAffinityApply_id (d : AffinityData) (ag : AffinityGroup) :
    (resourceAffinityApply d ag).id = d.id := rfl

lemma resourceAffinityApply_idem (d : AffinityData) (ag : AffinityGroup) :
    resourceAffinityApply (resourceAffinityApply d ag) ag =
      resourceAffinityApply d ag := rfl

/-- C8.  For every Create that succeeds, an immediate Read of the resulting
state returns that state unchanged (Create already ends in its own Read, so the
two agree); the network part assumes the server honors the identifier filter,
and the affinity part assumes the created group is retrievable.  Both the
network and the anti-affinity reconcilers are covered. -/
theorem create_read_convergence (c : Client) (d : NetworkData)
    (hfilter : ∀ (i : UUID) (z : Zone) (l : List Network),
      c.listNetworksByID i z.id = .ok l → ∀ n ∈ l, n.id = i)
    (hok : (resourceNetworkCreate c d).out = .ok) :
    ((resourceNetworkRead c (resourceNetworkCreate c d).state).state =
        (resourceNetworkCreate c d).state ∧
      (resourceNetworkRead c (resourceNetworkCreate c d).state).out = .ok) ∧
    (∀ (dA : AffinityData) (ag ag2 : AffinityGroup),
      c.createAffinityGroup ⟨dA.name, dA.description, dA.typ⟩ = .ok ag →
      c.getAffinityGroup ag.id = .ok ag2 →
      resourceAffinityRead c (resourceAffinityCreate c dA).1 =
        ((resourceAffinityCreate c dA).1, .ok)) := by
  constructor
  · obtain ⟨net, hstate, hrok⟩ := create_ok_shape c d hok
    rw [hstate]
    have hid1 : parseUUID ({ d with id := net.id.1 } : NetworkData).id = some net.id :=
      parseUUID_roundtrip net.id
    exact read_fixpoint c { d with id := net.id.1 } net.id hid1
      (fun z l h n hn => hfilter net.id z l h n hn) hrok
  · intro dA ag ag2 hcr hget
    have hid1 : parseUUID ({ dA with id := ag.id.1 } : AffinityData).id = some ag.id :=
      parseUUID_roundtrip ag.id
    have hread1 : resourceAffinityRead c { dA with id := ag.id.1 } =
        (resourceAffinityApply { dA with id := ag.id.1 } ag2, .ok) := by
      simp only [resourceAffinityRead, hid1, hget]
    have hcreate : resourceAffinityCreate c dA =
        (resourceAffinityApply { dA with id := ag.id.1 } ag2, .ok) := by
      simp only [resourceAffinityCreate, hcr, hread1]
    rw [hcreate]
    have hid2 : parseUUID (resourceAffinityApply { dA with id := ag.id.1 } ag2).id =
        some ag.id := by
      rw [resourceAffinityApply_id]
      exact parseUUID_roundtrip ag.id
    simp only [resourceAffinityRead, hid2, hget, resourceAffinityApply_idem]

theorem create_read_convergence_witness :
    (resourceNetworkRead filteringClient
        (resourceNetworkCreate filteringClient freshNetData).state).state =
      (resourceNetworkCreate filteringClient freshNetData).state ∧
    resourceAffinityRead filteringClient
        (resourceAffinityCreate filteringClient plainAgData).1 =
      ((resourceAffinityCreate filteringClient plainAgData).1, .ok) := by
  have hfilter : ∀ (i : UUID) (z : Zone) (l : List Network),
      filteringClient.listNetworksByID i z.id = .ok l → ∀ n ∈ l, n.id = i := by
    intro i z l h n hn
    by_cases hi : i = uuidNet
    · subst hi
      rw [filteringClient_list_hit] at h
      injection h with h2
      subst h2
      rcases List.mem_singleton.mp hn with rfl
      rfl
    · rw [filteringClient_list_miss hi] at h
      injection h with h2
      subst h2
      simp at hn
  have h := create_read_convergence filteringClient freshNetData hfilter (by rfl)
  exact ⟨h.1.1, h.2 plainAgData sampleAg sampleAg (by rfl) (by rfl)⟩

/-- C9.  A per-zone list RPC error that is not a typed API error response (a
plain error such as a timeout), and likewise a typed NotFound error, make
resourceNetworkFind fall through to the nil-response type assertion — a runtime
panic (crash) instead of skipping the zone or returning the error. -/
theorem find_error_fallthrough_crashes :
    (resourceNetworkFind
      { emptyClient with
        zones := .ok [gvaZone],
        listNetworksByID := fun _ _ => .error (.plain "context deadline exceeded") }
      { id := uuidNet.1, zone := "ch-gva-2", name := "n", display_text := "",
        start_ip := "", end_ip := "", netmask := "", tags := [] }).1 = .crash ∧
    (resourceNetworkFind
      { emptyClient with
        zones := .ok [gvaZone],
        listNetworksByID := fun _ _ => .error (.api .notFound) }
      { id := uuidNet.1, zone := "ch-gva-2", name := "n", display_text := "",
        start_ip := "", end_ip := "", netmask := "", tags := [] }).1 = .crash :=
  ⟨rfl, rfl⟩

lemma dsNetworkApply_ip_triple (d : DsNetworkData) (n : Network) :
    ((dsNetworkApply d n).start_ip = "" ∧ (dsNetworkApply d n).end_ip = "" ∧
      (dsNetworkApply d n).netmask = "") ∨
    (∃ a b m, n.startIP = some a ∧ n.endIP = some b ∧ n.netmask = some m ∧
      (dsNetworkApply d n).start_ip = a ∧ (dsNetworkApply d n).end_ip = b ∧
      (dsNetworkApply d n).netmask = m) := by
  unfold dsNetworkApply
  rcases n with ⟨nid, nn, ndt, nzn, nsi, nei, nnm, ntg⟩
  cases nsi <;> cases nei <;> cases nnm
  all_goals first
    | exact Or.inr ⟨_, _, _, rfl, rfl, rfl, rfl, rfl, rfl⟩
    | exact Or.inl ⟨rfl, rfl, rfl⟩

lemma resourceNetworkApply_ip_triple (d : NetworkData) (n : Network) :
    ((resourceNetworkApply d n).start_ip = "" ∧ (resourceNetworkApply d n).end_ip = "" ∧
      (resourceNetworkApply d n).netmask = "") ∨
    (∃ a b m, n.startIP = some a ∧ n.endIP = some b ∧ n.netmask = some m ∧
      (resourceNetworkApply d n).start_ip = a ∧ (resourceNetworkApply d n).end_ip = b ∧
      (resourceNetworkApply d n).netmask = m) := by
  unfold resourceNetworkApply
  rcases n with ⟨nid, nn, ndt, nzn, nsi, nei, nnm, ntg⟩
  cases nsi <;> cases nei <;> cases nnm
  all_goals first
    | exact Or.inr ⟨_, _, _, rfl, rfl, rfl, rfl, rfl, rfl⟩
    | exact Or.inl ⟨rfl, rfl, rfl⟩

lemma dsLoop_acc_some (nm : String) :
    ∀ (l : List Network) (n0 : Network),
      dsNetworkLoop false none nm l (some n0) =
        (if (l.filter (fun v => v.name == nm)).isEmpty then .ok (some n0)
         else .error (.multipleNetworks nm)) := by
  intro l
  induction l with
  | nil => intro n0; rfl
  | cons v rest ih =>
    intro n0
    by_cases hv : v.name = nm
    · simp [dsNetworkLoop, hv]
    · simp [dsNetworkLoop, hv, ih]

lemma dsLoop_none (nm : String) :
    ∀ l : List Network,
      dsNetworkLoop false none nm l none =
        (match l.filter (fun v => v.name == nm) with
         | [] => .ok none
         | [n] => .ok (some n)
         | _ :: _ :: _ => .error (.multipleNetworks nm)) := by
  intro l
  induction l with
  | nil => rfl
  | cons v rest ih =>
    by_cases hv : v.name = nm
    · rcases hf : rest.filter (fun v => v.name == nm) with _ | ⟨b, bs⟩
      · simp [dsNetworkLoop, hv, dsLoop_acc_some, hf]
      · simp [dsNetworkLoop, hv, dsLoop_acc_some, hf]
    · simp [dsNetworkLoop, hv, ih]

lemma dsLoop_ok_mem (byID : Bool) (pid : Option UUID) (nm : String) :
    ∀ (l : List Network) (acc : Option Network) (n : Network),
      dsNetworkLoop byID pid nm l acc = .ok (some n) → n ∈ l ∨ acc = some n := by
  intro l
  induction l with
  | nil =>
    intro acc n h
    right
    have h2 : (Except.ok acc : Except GoErr (Option Network)) = .ok (some n) := h
    injection h2
  | cons v rest ih =>
    intro acc n h
    by_cases h1 : byID = true ∧ pid = some v.id
    · simp only [dsNetworkLoop] at h
      rw [if_pos h1] at h
      have h2 : (Except.ok (some v) : Except GoErr (Option Network)) = .ok (some n) := h
      injection h2 with h3
      injection h3 with h4
      subst h4
      exact Or.inl (List.mem_cons_self _ _)
    · simp only [dsNetworkLoop] at h
      rw [if_neg h1] at h
      by_cases h2 : v.name = nm
      · rw [if_pos h2] at h
        rcases acc with _ | a
        · have h3 : dsNetworkLoop byID pid nm rest (some v) = .ok (some n) := h
          rcases ih (some v) n h3 with hmem | heq
          · exact Or.inl (List.mem_cons_of_mem _ hmem)
          · injection heq with h4
            subst h4
            exact Or.inl (List.mem_cons_self _ _)
        · have h3 : (Except.error (GoErr.multipleNetworks v.name) :
              Except GoErr (Option Network)) = .ok (some n) := h
          exact absurd h3 (by simp)
      · rw [if_neg h2] at h
        rcases ih acc n h with hmem | heq
        · exact Or.inl (List.mem_cons_of_mem _ hmem)
        · exact Or.inr heq

lemma find_eq_filter_head (p : DNSDomain → Bool) :
    ∀ l : List DNSDomain, l.find? p = (l.filter p).head? := by
  intro l
  induction l with
  | nil => rfl
  | cons x xs ih =>
    cases hx : p x
    · rw [List.find?_cons_of_neg _ (by simp [hx]), List.filter_cons_of_neg (by simp [hx])]
      exact ih
    · rw [List.find?_cons_of_pos _ hx, List.filter_cons_of_pos hx]
      rfl

/-- C1, amended.  For the network data source's name-based Read, two Remote
Objects sharing the queried name make the read fail with the explicit
"specify a unique ID instead" error, zero matches fail with a not-found error,
and exactly one match succeeds with the state set from that object.  The domain
data-source read, however, performs no ambiguity check: with zero matches it
fails with a not-found error, and with one or more matches it succeeds with the
first matching domain. -/
theorem name_lookup_policy (c : Client) (d : DsNetworkData) (z : Zone)
    (l : List Network) (dd : DomainData) (ds : List DNSDomain)
    (hname : d.name ≠ "") (hid : d.id_attr = "")
    (hz : getZoneByName c d.zone = .ok z)
    (hl : c.listNetworks z.id = .ok l)
    (hdom : c.listDNSDomains = .ok ds) :
    (2 ≤ (l.filter (fun v => v.name == d.name)).length →
      (dataSourceNetworkRead c d).2 = some (.multipleNetworks d.name)) ∧
    (l.filter (fun v => v.name == d.name) = [] →
      (dataSourceNetworkRead c d).2 = some .networkNotFound) ∧
    (∀ n, l.filter (fun v => v.name == d.name) = [n] →
      dataSourceNetworkRead c d = (dsNetworkApply d n, none)) ∧
    (ds.filter (fun item => item.unicodeName == dd.name) = [] →
      (dataSourceDomainRead c dd).2 = some (.domainNotFound dd.name)) ∧
    (∀ m ms, ds.filter (fun item => item.unicodeName == dd.name) = m :: ms →
      dataSourceDomainRead c dd = ({ dd with id := m.id, name := m.unicodeName }, none)) := by
  refine ⟨?_, ?_, ?_, ?_, ?_⟩
  · intro h2
    rcases hf : l.filter (fun v => v.name == d.name) with _ | ⟨a, _ | ⟨b, bs⟩⟩
    · rw [hf] at h2
      simp at h2
    · rw [hf] at h2
      simp at h2
    · have hloop : dsNetworkLoop false none d.name l none =
          .error (.multipleNetworks d.name) := by
        rw [dsLoop_none, hf]
      simp [dataSourceNetworkRead, hz, hname, hid, hl, hloop]
  · intro hf
    have hloop : dsNetworkLoop false none d.name l none = .ok none := by
      rw [dsLoop_none, hf]
    simp [dataSourceNetworkRead, hz, hname, hid, hl, hloop]
  · intro n hf
    have hloop : dsNetworkLoop false none d.name l none = .ok (some n) := by
      rw [dsLoop_none, hf]
    simp [dataSourceNetworkRead, hz, hname, hid, hl, hloop]
  · intro hf
    have hfind : ds.find? (fun item => item.unicodeName == dd.name) = none := by
      rw [find_eq_filter_head, hf]
      rfl
    simp [dataSourceDomainRead, hdom, hfind]
  · intro m ms hf
    have hfind : ds.find? (fun item => item.unicodeName == dd.name) = some m := by
      rw [find_eq_filter_head, hf]
      rfl
    simp [dataSourceDomainRead, hdom, hfind]

theorem name_lookup_policy_witness :
    dataSourceNetworkRead dsHappyClient dsQueryData =
      (dsNetworkApply dsQueryData sampleNetwork, none) ∧
    dataSourceDomainRead dsHappyClient ⟨"", "example.com"⟩ =
      ({ id := "dom-1", name := "example.com" }, none) := by
  have h := name_lookup_policy dsHappyClient dsQueryData gvaZone
    [sampleNetwork, otherNet] ⟨"", "example.com"⟩ [⟨"dom-1", "example.com"⟩]
    (by decide) (by rfl) (by rfl) (by rfl) (by rfl)
  exact ⟨h.2.2.1 sampleNetwork (by rfl),
    h.2.2.2.2 ⟨"dom-1", "example.com"⟩ [] (by rfl)⟩

/-- C10.  The mapping of a network Remote Object onto the Declared Resource
State — resourceNetworkApply for the resource Read, and the data-source network
read — always sets start_ip, end_ip and netmask either all three from the
remote object's values or all three to the empty string, never a partial
subset. -/
theorem ip_triple_all_or_nothing (c : Client) (dd : DsNetworkData) (z : Zone)
    (l : List Network)
    (hz : getZoneByName c dd.zone = .ok z)
    (hl : c.listNetworks z.id = .ok l) :
    (∀ (d : NetworkData) (n : Network),
      ((resourceNetworkApply d n).start_ip = "" ∧
        (resourceNetworkApply d n).end_ip = "" ∧
        (resourceNetworkApply d n).netmask = "") ∨
      (∃ a b m, n.startIP = some a ∧ n.endIP = some b ∧ n.netmask = some m ∧
        (resourceNetworkApply d n).start_ip = a ∧
        (resourceNetworkApply d n).end_ip = b ∧
        (resourceNetworkApply d n).netmask = m)) ∧
    ((dataSourceNetworkRead c dd).2 = none →
      ∃ n ∈ l, dataSourceNetworkRead c dd = (dsNetworkApply dd n, none) ∧
        (((dsNetworkApply dd n).start_ip = "" ∧ (dsNetworkApply dd n).end_ip = "" ∧
            (dsNetworkApply dd n).netmask = "") ∨
          (∃ a b m, n.startIP = some a ∧ n.endIP = some b ∧ n.netmask = some m ∧
            (dsNetworkApply dd n).start_ip = a ∧ (dsNetworkApply dd n).end_ip = b ∧
            (dsNetworkApply dd n).netmask = m))) := by
  constructor
  · intro d n
    exact resourceNetworkApply_ip_triple d n
  · intro hsucc
    by_cases hboth : dd.name = "" ∧ dd.id_attr = ""
    · exfalso
      simp [dataSourceNetworkRead, hz, hboth] at hsucc
    · by_cases hbadid : dd.id_attr ≠ "" ∧
          (if dd.id_attr ≠ "" then parseUUID dd.id_attr else none) = none
      · exfalso
        simp only [dataSourceNetworkRead, hz] at hsucc
        rw [if_neg hboth, if_pos hbadid] at hsucc
        simp at hsucc
      · rcases hloop : dsNetworkLoop (dd.id_attr != "")
            (if dd.id_attr ≠ "" then parseUUID dd.id_attr else none)
            (if dd.name ≠ "" then dd.name else "") l none with e | sel
        · exfalso
          simp only [dataSourceNetworkRead, hz] at hsucc
          rw [if_neg hboth, if_neg hbadid] at hsucc
          simp only [hl, hloop] at hsucc
          simp at hsucc
        · rcases sel with _ | n
          · exfalso
            simp only [dataSourceNetworkRead, hz] at hsucc
            rw [if_neg hboth, if_neg hbadid] at hsucc
            simp only [hl, hloop] at hsucc
            simp at hsucc
          · have hres : dataSourceNetworkRead c dd = (dsNetworkApply dd n, none) := by
              simp only [dataSourceNetworkRead, hz]
              rw [if_neg hboth, if_neg hbadid]
              simp only [hl, hloop]
            have hmem : n ∈ l ∨ (none : Option Network) = some n :=
              dsLoop_ok_mem _ _ _ l none n hloop
            rcases hmem with hmem | habs
            · exact ⟨n, hmem, hres, dsNetworkApply_ip_triple dd n⟩
            · exact absurd habs (by simp)

theorem ip_triple_all_or_nothing_witness :
    (((resourceNetworkApply plainNetData sampleNetwork).start_ip = "" ∧
        (resourceNetworkApply plainNetData sampleNetwork).end_ip = "" ∧
        (resourceNetworkApply plainNetData sampleNetwork).netmask = "") ∨
      (∃ a b m, sampleNetwork.startIP = some a ∧ sampleNetwork.endIP = some b ∧
        sampleNetwork.netmask = some m ∧
        (resourceNetworkApply plainNetData sampleNetwork).start_ip = a ∧
        (resourceNetworkApply plainNetData sampleNetwork).end_ip = b ∧
        (resourceNetworkApply plainNetData sampleNetwork).netmask = m)) ∧
    ∃ n ∈ [sampleNetwork, otherNet],
      dataSourceNetworkRead dsHappyClient dsQueryData = (dsNetworkApply dsQueryData n, none) ∧
        (((dsNetworkApply dsQueryData n).start_ip = "" ∧
            (dsNetworkApply dsQueryData n).end_ip = "" ∧
            (dsNetworkApply dsQueryData n).netmask = "") ∨
          (∃ a b m, n.startIP = some a ∧ n.endIP = some b ∧ n.netmask = some m ∧
            (dsNetworkApply dsQueryData n).start_ip = a ∧
            (dsNetworkApply dsQueryData n).end_ip = b ∧
            (dsNetworkApply dsQueryData n).netmask = m)) := by
  have h := ip_triple_all_or_nothing dsHappyClient dsQueryData gvaZone
    [sampleNetwork, otherNet] (by rfl) (by rfl)
  exact ⟨h.1 plainNetData sampleNetwork, h.2 (by rfl)⟩

end Exoscale
